import Mathlib

set_option autoImplicit false

/-
Verification of the overdue-jobs analysis engine (app.py / utils.py).

The tabular data model is embedded shallowly: a DataFrame is a header (list
of column names) together with rows (lists of string cells aligned with the
header).  Dates handled by the external pandas parser are modelled by an
explicit parameter (parse : String -> Option Int) mapping a cell to an
abstract ordered timestamp, and the external clock by an explicit
(today : Int) parameter; percentages are exact rationals.  String helpers
(trim, lower, substring containment, splitting) are re-implemented
structurally over character lists so that all definitions evaluate inside
the kernel.
-/

/-! Section: String primitives (structural re-implementations) -/

/-- Lower-cases an ASCII letter, models str.lower for the ASCII strings used
by the program. -/
def lowerCh (c : Char) : Char :=
  if 65 ≤ c.toNat && c.toNat ≤ 90 then Char.ofNat (c.toNat + 32) else c

/-- Models str.lower. -/
def toLowerS (s : String) : String := ⟨s.data.map lowerCh⟩

/-- Whitespace trimming on a character list. -/
def trimL (l : List Char) : List Char :=
  ((l.dropWhile Char.isWhitespace).reverse.dropWhile Char.isWhitespace).reverse

/-- Models str.strip. -/
def trimS (s : String) : String := ⟨trimL s.data⟩

/-- Tests whether the first list is an initial segment of the second. -/
def prefAux : List Char → List Char → Bool
  | [], _ => true
  | _ :: _, [] => false
  | a :: as, b :: bs => a == b && prefAux as bs

/-- Tests whether the first list occurs contiguously inside the second. -/
def subAux (n : List Char) : List Char → Bool
  | [] => prefAux n []
  | c :: rest => prefAux n (c :: rest) || subAux n rest

/-- Models the Python expression needle in hay on strings. -/
def substrOf (needle hay : String) : Bool := subAux needle.data hay.data

/-- Splits a character list on a separator character; models str.split. -/
def splitCh (c : Char) : List Char → List (List Char)
  | [] => [[]]
  | x :: xs =>
    let r := splitCh c xs
    if x == c then [] :: r
    else
      match r with
      | [] => [[x]]
      | h :: t => (x :: h) :: t

/-- Models os.path.basename: the part after the last slash. -/
def basenameS (s : String) : String := ⟨(splitCh (Char.ofNat 47) s.data).getLastD s.data⟩

/-- Numeric value of a digit list. -/
def digitsVal (l : List Char) : Nat := l.foldl (fun a c => a * 10 + (c.toNat - 48)) 0

/-- Parses a nonempty all-digit character list, otherwise none. -/
def toNatQ (l : List Char) : Option Nat :=
  if !l.isEmpty && l.all Char.isDigit then some (digitsVal l) else none

/-- First index of an exact string in a list of column names. -/
def idxOfS (l : List String) (s : String) : Option Nat := l.findIdx? (· == s)

/-! Section: Tabular data model -/

/-- One row of an uploaded table: its cells, aligned with the header. -/
abbrev Row : Type := List String

/-- A table: ordered column names plus rows of string cells. -/
structure DataFrame where
  header : List String
  rows : List Row

/-- Cell of a row at a column index, empty string when out of range
(pandas would hold a missing value there). -/
def cellAt (r : Row) (i : Nat) : String := List.getD r i ""

/-- Column names after the str.strip() normalisation applied by the
classifier (df_copy.columns.str.strip()). -/
def strippedHeader (df : DataFrame) : List String := df.header.map trimS

/-- Order-preserving deduplication, models pandas Series.unique(). -/
def dedupAux (seen : List String) : List String → List String
  | [] => []
  | x :: xs => if seen.contains x then dedupAux seen xs else x :: dedupAux (x :: seen) xs

/-- First-occurrence-order distinct values of a list. -/
def dedupKeep (l : List String) : List String := dedupAux [] l

/-! Section: Date extraction (process_csv_file lines 22-25 of utils.py) -/

/-- Word character in the sense of the regex metacharacter backslash-b:
letters, digits and the underscore. -/
def isWordChar (c : Char) : Bool := c.isAlphanum || c == '_'

/-- Whether the regex (word-boundary, 8 digits, word-boundary) matches the
character list cs starting at position i. -/
def okAt (cs : List Char) (i : Nat) : Bool :=
  (i == 0 || !isWordChar (cs.getD (i - 1) ' ')) &&
  ((cs.drop i).take 8).length == 8 &&
  ((cs.drop i).take 8).all Char.isDigit &&
  (i + 8 == cs.length || !isWordChar (cs.getD (i + 8) ' '))

/-- Leftmost position at or after start (scanning fuel positions) where the
predicate holds; models the scan performed by re.search. -/
def scanIdx (p : Nat → Bool) : Nat → Nat → Option Nat
  | _, 0 => none
  | i, fuel + 1 => if p i then some i else scanIdx p (i + 1) fuel

/-- Renders the matched 8-digit run at position i in the dd-mm-yyyy display
form built from the three capture groups. -/
def fmtRunL (cs : List Char) (i : Nat) : String :=
  ⟨(cs.drop i).take 2 ++ '-' :: ((cs.drop (i + 2)).take 2 ++ '-' :: (cs.drop (i + 4)).take 4)⟩

/-- Models the date extraction of process_csv_file: re.search of
(word-boundary)(2 digits)(2 digits)(4 digits)(word-boundary) over the file
name, formatted as dd-mm-yyyy, "Unknown" when there is no match.  The file
name is scanned as-is: no extension is stripped. -/
def formatDate (name : String) : String :=
  match scanIdx (okAt name.data) 0 name.data.length with
  | some i => fmtRunL name.data i
  | none => "Unknown"

/-! Section: File summarizer (process_csv_file of utils.py) -/

/-- Summary record produced for one uploaded file.  The count fields are
none when the Python code stores the literal string "Error" there. -/
structure FileSummary where
  fileName : String
  vesselName : String
  totalCount : Option Nat
  newJobCount : Option Nat
  extractedDate : String
deriving DecidableEq

/-- Error-path summary: counts replaced by the "Error" sentinel, the file
name and extracted date keep whatever was computed before the failure. -/
def errorSummary (name fd : String) : FileSummary :=
  { fileName := name, vesselName := "Error", totalCount := none,
    newJobCount := none, extractedDate := fd }

/-- First column whose lower-cased name contains "vessel". -/
def vesselColIdx (hdr : List String) : Option Nat :=
  hdr.findIdx? (fun c => substrOf "vessel" (toLowerS c))

/-- First column whose lower-cased name contains "status". -/
def statusColIdx (hdr : List String) : Option Nat :=
  hdr.findIdx? (fun c => substrOf "status" (toLowerS c))

/-- Success-path summary: total row count, and count of rows whose stripped
status cell equals "New" (0 when no status column exists). -/
def mkSummary (name : String) (df : DataFrame) (vessel fd : String) : FileSummary :=
  let nw := match statusColIdx df.header with
    | some si => (df.rows.filter (fun r => trimS (cellAt r si) == "New")).length
    | none => 0
  { fileName := name, vesselName := vessel, totalCount := some df.rows.length,
    newJobCount := some nw, extractedDate := fd }

/-- Models process_csv_file.  The table argument is none when pd.read_csv
fails.  When a vessel column exists, the first cell of that column is read
(df[vessel].iloc[0]); on an empty table that read raises and the broad
except returns the error summary. -/
def process_csv_file (name : String) (table : Option DataFrame) : FileSummary :=
  let fd := formatDate name
  match table with
  | none => errorSummary name fd
  | some df =>
    match vesselColIdx df.header with
    | some vi =>
      match df.rows.head? with
      | none => errorSummary name fd
      | some r0 => mkSummary name df (cellAt r0 vi) fd
    | none => mkSummary name df "Vessel column not found" fd

/-! Section: Overdue classifier (analyze_overdue_jobs of utils.py) -/

/-- Two-decimal rounding, models round(x, 2). -/
def round2 (q : ℚ) : ℚ := ((round (q * 100) : ℤ) : ℚ) / 100

/-- Percentage of c out of t, rounded to two decimals, 0 when t = 0;
models round((count / total) * 100, 2) guarded by total > 0. -/
def pct (c t : Nat) : ℚ := if t = 0 then 0 else round2 ((c : ℚ) / (t : ℚ) * 100)

/-- Per-file analysis record appended to file_results. -/
structure FileResult where
  file_name : String
  total_jobs : Nat
  overdue_jobs_count : Nat
  overdue_jobs_percentage : ℚ
  critical_overdue_jobs_count : Nat
  critical_overdue_jobs_percentage : ℚ
  overdue_jobs : List Row
  critical_overdue_jobs : List Row
deriving DecidableEq

/-- Dictionary returned by analyze_overdue_jobs. -/
structure AnalysisResult where
  file_results : List FileResult
  overdue_jobs_count : Nat
  overdue_jobs_percentage : ℚ
  critical_overdue_jobs_count : Nat
  critical_overdue_jobs_percentage : ℚ
  total_jobs : Nat
  overdue_jobs : List Row
  critical_overdue_jobs : List Row
deriving DecidableEq

/-- All-zero result returned when a required column is missing or when the
broad except handler fires. -/
def zeroResult : AnalysisResult :=
  { file_results := [], overdue_jobs_count := 0, overdue_jobs_percentage := 0,
    critical_overdue_jobs_count := 0, critical_overdue_jobs_percentage := 0,
    total_jobs := 0, overdue_jobs := [], critical_overdue_jobs := [] }

/-- Due-date part of the overdue test: pandas coerces an unparseable cell to
a missing value and a comparison against a missing value is false. -/
def dueOk (parse : String → Option Int) (today : Int) (s : String) : Bool :=
  match parse s with
  | some d => decide (d ≤ today)
  | none => false

/-- Status part of the overdue test: stripped, lower-cased membership in
the two overdue-eligible statuses. -/
def statusOk (s : String) : Bool :=
  let t := toLowerS (trimS s)
  t == "pending" || t == "in progress on board"

/-- Overdue row predicate of the classifier (due date at or before the
comparison date, eligible status). -/
def overduePred (parse : String → Option Int) (today : Int) (di si : Nat) (r : Row) : Bool :=
  dueOk parse today (cellAt r di) && statusOk (cellAt r si)

/-- Criticality mark of the conventional unnamed first column. -/
def critMark (s : String) : Bool := toLowerS (trimS s) == "c"

/-- Criticality mark accepted from an alternative critical/priority column. -/
def critAlt (s : String) : Bool :=
  let t := toLowerS (trimS s)
  t == "c" || t == "critical" || t == "high" || t == "yes" || t == "true"

/-- First column whose lower-cased name contains "critical" or "priority". -/
def critColIdx (hdr : List String) : Option Nat :=
  hdr.findIdx? (fun c => substrOf "critical" (toLowerS c) || substrOf "priority" (toLowerS c))

/-- Critical-overdue rows of one group: the "Unnamed: 0" column (value "c")
when it exists, else the first critical/priority column (one of the accepted
marks), else no rows. -/
def criticalRows (parse : String → Option Int) (today : Int) (hdr : List String)
    (di si : Nat) (rows : List Row) : List Row :=
  match idxOfS hdr "Unnamed: 0" with
  | some ui => rows.filter (fun r => critMark (cellAt r ui) && overduePred parse today di si r)
  | none =>
    match critColIdx hdr with
    | some ci => rows.filter (fun r => critAlt (cellAt r ci) && overduePred parse today di si r)
    | none => []

/-- Grouping-key selection of the classifier: the _source_file column, else
the File Name column, else a single synthetic group. The second component
is the index of the grouping column when one exists. -/
def groupingOf (df : DataFrame) : List String × Option Nat :=
  match idxOfS (strippedHeader df) "_source_file" with
  | some gi => (dedupKeep (df.rows.map (fun r => cellAt r gi)), some gi)
  | none =>
    match idxOfS (strippedHeader df) "File Name" with
    | some gi => (dedupKeep (df.rows.map (fun r => cellAt r gi)), some gi)
    | none => (["Entire Dataset"], none)

/-- Rows of one group: rows whose grouping cell equals the key, or the whole
table for the synthetic single group. -/
def rowsOfGroup (df : DataFrame) (gsel : Option Nat) (key : String) : List Row :=
  match gsel with
  | some gi => df.rows.filter (fun r => cellAt r gi == key)
  | none => df.rows

/-- Per-group body of the classifier loop. -/
def mkFileResult (parse : String → Option Int) (today : Int) (hdr : List String)
    (di si : Nat) (gsel : Option Nat) (df : DataFrame) (key : String) : FileResult :=
  let rows := rowsOfGroup df gsel key
  let ov := rows.filter (overduePred parse today di si)
  let cr := criticalRows parse today hdr di si rows
  { file_name := key,
    total_jobs := rows.length,
    overdue_jobs_count := ov.length,
    overdue_jobs_percentage := pct ov.length rows.length,
    critical_overdue_jobs_count := cr.length,
    critical_overdue_jobs_percentage := pct cr.length rows.length,
    overdue_jobs := ov,
    critical_overdue_jobs := cr }

/-- Aggregation across file_results: summed counts, percentages recomputed
from the summed counts, concatenated row subsets. -/
def aggregateOf (frs : List FileResult) : AnalysisResult :=
  let t := (frs.map FileResult.total_jobs).sum
  let o := (frs.map FileResult.overdue_jobs_count).sum
  let c := (frs.map FileResult.critical_overdue_jobs_count).sum
  { file_results := frs,
    overdue_jobs_count := o,
    overdue_jobs_percentage := pct o t,
    critical_overdue_jobs_count := c,
    critical_overdue_jobs_percentage := pct c t,
    total_jobs := t,
    overdue_jobs := (frs.map FileResult.overdue_jobs).flatten,
    critical_overdue_jobs := (frs.map FileResult.critical_overdue_jobs).flatten }

/-- Models analyze_overdue_jobs.  parse stands for pd.to_datetime with
errors coerced, today for the module clock.  When both required columns are
present every group is classified against the same today value; when the
group list is empty the sum over the empty results frame raises in Python
and the except handler returns the all-zero result. -/
def analyze_overdue_jobs (parse : String → Option Int) (today : Int)
    (df : DataFrame) : AnalysisResult :=
  let hdr := strippedHeader df
  match idxOfS hdr "Calculated Due Date", idxOfS hdr "Job Status" with
  | some di, some si =>
    let g := groupingOf df
    let frs := g.1.map (mkFileResult parse today hdr di si g.2 df)
    if frs.isEmpty then zeroResult else aggregateOf frs
  | _, _ => zeroResult

/-! Section: Key reconciliation at the chart consumer
(create_vessel_job_distribution_chart lines 108-136 of utils.py) -/

/-- Dictionary lookup over an association list with distinct keys. -/
def lookupD {α : Type} (m : List (String × α)) (k : String) : Option α :=
  (m.find? (fun p => p.1 == k)).map (fun p => p.2)

/-- Models the per-row matching loop of the vessel job distribution chart:
exact file-name lookup in the overdue map, then lookup of the basename,
then first key related by substring containment in either direction; when
nothing matches the chart appends zeros for both series. -/
def chartReconcile (m : List (String × (Nat × Nat))) (fileName : String) : Nat × Nat :=
  match lookupD m fileName with
  | some v => v
  | none =>
    match lookupD m (basenameS fileName) with
    | some v => v
    | none =>
      match m.find? (fun p => substrOf fileName p.1 || substrOf p.1 fileName) with
      | some p => p.2
      | none => (0, 0)

/-! Section: Key reconciliation at the summary table
(job_status_table loop, lines 169-223 of app.py) -/

/-- Row of overdue metrics carried into the job status table. -/
structure TableEntry where
  overdueJobs : Nat
  criticalOverdue : Nat
  overduePct : ℚ
deriving DecidableEq

/-- Python dict insertion, on the mapping the dict denotes: binds the key
to the new value, later insertions overwriting earlier ones. -/
def insertD (m : String → Option TableEntry) (k : String) (v : TableEntry) :
    String → Option TableEntry :=
  fun x => if x = k then some v else m x

/-- Models simplified_map of app.py as the mapping it denotes: for each
analysis key, in order, the basename is inserted first and then the full
key, each mapped to that key's metrics.  The summary table only ever reads
this dict by key, so the mapping captures all its observable behaviour. -/
def simplifiedMap (fam : List (String × TableEntry)) : String → Option TableEntry :=
  fam.foldl (fun acc p => insertD (insertD acc (basenameS p.1) p.2) p.1 p.2) (fun _ => none)

/-- Models the matching loop of the job status table: lookup of the display
file name in simplified_map, then of its basename, then the first analysis
key related by substring containment; none models the "N/A" placeholders. -/
def tableReconcile (fam : List (String × TableEntry)) (fileName : String) : Option TableEntry :=
  match simplifiedMap fam fileName with
  | some v => some v
  | none =>
    match simplifiedMap fam (basenameS fileName) with
    | some v => some v
    | none =>
      match fam.find? (fun p => substrOf fileName p.1 || substrOf p.1 fileName) with
      | some p => some p.2
      | none => none

/-! Section: Excel export (create_excel_report of utils.py) -/

/-- One conditional formatting rule registered on the sheet. -/
structure CondRule where
  ruleType : String
  cellRange : String
deriving DecidableEq

/-- Formatting-relevant output of create_excel_report: sheet title, emitted
columns, table object and the list of conditional formatting rules. -/
structure ExcelReport where
  sheetTitle : String
  columns : List String
  tableName : String
  condRules : List CondRule
deriving DecidableEq

/-- Column order required for the exported sheet. -/
def requiredColumns : List String :=
  ["File Name", "Vessel Name", "Total Count of Jobs", "New Job Count",
   "Date Extracted from File Name", "Overdue Jobs", "Critical Overdue", "Overdue %"]

/-- Models create_excel_report: keeps the required columns that exist, and
registers exactly one conditional formatting rule, the duplicate-values
highlight over the vessel-name column B (rows 2 through max_row, where
max_row is the header row plus the data rows). -/
def create_excel_report (df : DataFrame) : ExcelReport :=
  { sheetTitle := "Job Status Summary",
    columns := requiredColumns.filter (fun c => df.header.contains c),
    tableName := "JobSummaryTable",
    condRules := [{ ruleType := "duplicateValues",
                    cellRange := "B2:B" ++ toString (df.rows.length + 1) }] }

/-! Section: Definitions written from the specification text (for comparison
against the code; each is named spec...) -/

/-- Follows the wording of the spec: strip the extension (the part after
the last dot) from an identifier before scanning for a date token. -/
def specStripExt (s : String) : String :=
  let parts := splitCh (Char.ofNat 46) s.data
  if parts.length ≤ 1 then s else ⟨List.intercalate [Char.ofNat 46] parts.dropLast⟩

/-- Follows the wording of the spec: an 8-digit token at position i that is
not part of a longer digit run (neighbours are not digits). -/
def specTokAt (cs : List Char) (i : Nat) : Bool :=
  ((cs.drop i).take 8).length == 8 &&
  ((cs.drop i).take 8).all Char.isDigit &&
  (i == 0 || !(cs.getD (i - 1) ' ').isDigit) &&
  (i + 8 == cs.length || !(cs.getD (i + 8) ' ').isDigit)

/-- Follows the wording of the spec (Date Extractor, section 4.1 and the
EffectiveDate data model): the effective date of a group key is the
ddmmyyyy token found in the key after stripping path prefix and extension,
encoded on the same timestamp axis as parse (year, month, day ordered
numerically), falling back to today when no token exists. -/
def specEffectiveDate (today : Int) (key : String) : Int :=
  let cs := (specStripExt (basenameS key)).data
  match scanIdx (specTokAt cs) 0 cs.length with
  | some i =>
    let ds := (cs.drop i).take 8
    ((digitsVal (ds.drop 4) * 10000 + digitsVal ((ds.drop 2).take 2) * 100
      + digitsVal (ds.take 2) : Nat) : Int)
  | none => today

/-- Follows the wording of the spec: the overdue count a group would have if
its rows were compared against the effective date derived from the group
key, as the spec prescribes, instead of against today. -/
def specGroupOverdueCount (parse : String → Option Int) (today : Int) (df : DataFrame)
    (di si : Nat) (gsel : Option Nat) (key : String) : Nat :=
  ((rowsOfGroup df gsel key).filter
    (fun r => dueOk parse (specEffectiveDate today key) (cellAt r di)
      && statusOk (cellAt r si))).length

/-- Follows the wording of the spec: the aggregate percentage a batch would
have if it were computed as the mean of the per-group percentages, the
formula the spec rules out. -/
def specMeanOverduePct (frs : List FileResult) : ℚ :=
  (frs.map FileResult.overdue_jobs_percentage).sum / (frs.length : ℚ)

/-! Section: Concrete fixtures used by witnesses and counterexamples -/

/-- Concrete instantiation of the pandas parser used by the witnesses:
reads dd-mm-yyyy cells onto the numeric axis year*10000 + month*100 + day,
any other cell is coerced to a missing value. -/
def parseDMY (s : String) : Option Int :=
  match splitCh '-' s.data with
  | [d, m, y] =>
    match toNatQ d, toNatQ m, toNatQ y with
    | some dn, some mn, some yn => some ((yn * 10000 + mn * 100 + dn : Nat) : Int)
    | _, _, _ => none
  | _ => none

/-- Batch with two source files whose names encode the dates 01-01-2024 and
15-03-2024; both rows are pending with due date 01-06-2024. -/
def dfTwoKeys : DataFrame :=
  { header := ["_source_file", "Calculated Due Date", "Job Status"],
    rows := [["A 01012024.csv", "01-06-2024", "pending"],
             ["B 15032024.csv", "01-06-2024", "pending"]] }

/-- Batch with a group of 1 row (overdue) and a group of 3 rows (none
overdue): group percentages 100 and 0, aggregate 1 of 4. -/
def dfSkewed : DataFrame :=
  { header := ["_source_file", "Calculated Due Date", "Job Status"],
    rows := [["A", "01-01-2024", "pending"],
             ["B", "01-01-2030", "pending"],
             ["B", "01-01-2030", "pending"],
             ["B", "01-01-2030", "pending"]] }

/-- Nonempty table carrying a due-date column but no Job Status column. -/
def dfDueOnly : DataFrame :=
  { header := ["Calculated Due Date"], rows := [["01-01-2024"]] }

/-- Table with the conventional unnamed criticality column left blank while
a Priority column marks the only (overdue) row as high. -/
def dfUnnamedPriority : DataFrame :=
  { header := ["Unnamed: 0", "Calculated Due Date", "Job Status", "Priority"],
    rows := [["", "01-01-2020", "pending", "high"]] }

/-- Readable table with a vessel column and no rows. -/
def dfVesselEmpty : DataFrame :=
  { header := ["Vessel"], rows := [] }

/-- Readable table without any status column and with one row. -/
def dfNoStatus : DataFrame :=
  { header := ["Vessel Name", "Thing"], rows := [["V1", "x"]] }

/-- Table exported with an Overdue % column holding "100.0%". -/
def dfExport : DataFrame :=
  { header := ["File Name", "Vessel Name", "Overdue %"],
    rows := [["a.csv", "V1", "100.0%"], ["b.csv", "V2", "0.0%"]] }

/-- Placeholder record used as a getD default inside witnesses. -/
def defaultFR : FileResult :=
  { file_name := "", total_jobs := 0, overdue_jobs_count := 0,
    overdue_jobs_percentage := 0, critical_overdue_jobs_count := 0,
    critical_overdue_jobs_percentage := 0, overdue_jobs := [], critical_overdue_jobs := [] }

/-! Section: Helper lemmas -/

/-- Filtering by a conjunction yields a sublist of filtering by the second
conjunct alone. -/
theorem filterAnd_sublist {α : Type} (p q : α → Bool) (l : List α) :
    List.Sublist (l.filter (fun a => p a && q a)) (l.filter q) := by
  induction l with
  | nil => simp
  | cons a t ih =>
    by_cases hq : q a
    · by_cases hp : p a
      · simpa [List.filter, hp, hq] using ih.cons₂ a
      · simpa [List.filter, hp, hq] using ih.cons a
    · simp [List.filter, hq, ih]

/-- Every member of file_results is the per-group record of some group key,
and the required columns were present. -/
theorem analyze_mem_shape (parse : String → Option Int) (today : Int) (df : DataFrame)
    (fr : FileResult) (h : fr ∈ (analyze_overdue_jobs parse today df).file_results) :
    ∃ di si key,
      idxOfS (strippedHeader df) "Calculated Due Date" = some di ∧
      idxOfS (strippedHeader df) "Job Status" = some si ∧
      fr = mkFileResult parse today (strippedHeader df) di si (groupingOf df).2 df key := by
  simp only [analyze_overdue_jobs] at h
  split at h
  · rename_i di si hdi hsi
    split at h
    · simp [zeroResult] at h
    · simp only [aggregateOf, List.mem_map] at h
      obtain ⟨key, _, hk⟩ := h
      exact ⟨di, si, key, hdi, hsi, hk.symm⟩
  · simp [zeroResult] at h

/-- The scan returns the position at which the predicate first holds. -/
theorem scanIdx_eq_some (p : Nat → Bool) (start fuel i : Nat)
    (hlo : start ≤ i) (hhi : i < start + fuel) (hp : p i = true)
    (hmin : ∀ j, start ≤ j → j < i → p j = false) :
    scanIdx p start fuel = some i := by
  induction fuel generalizing start with
  | zero => omega
  | succ n ih =>
    unfold scanIdx
    rcases Nat.eq_or_lt_of_le hlo with heq | hlt
    · subst heq
      simp [hp]
    · rw [hmin start le_rfl hlt]
      simp only [Bool.false_eq_true, if_false]
      exact ih (start + 1) hlt (by omega) (fun j h1 h2 => hmin j (by omega) h2)

/-- The scan fails when the predicate holds nowhere. -/
theorem scanIdx_eq_none (p : Nat → Bool) (start fuel : Nat)
    (hall : ∀ j, p j = false) :
    scanIdx p start fuel = none := by
  induction fuel generalizing start with
  | zero => rfl
  | succ n ih =>
    unfold scanIdx
    rw [hall start]
    simp only [Bool.false_eq_true, if_false]
    exact ih (start + 1)

/-- Closed-form evaluation of the two-decimal percentage. -/
theorem pct_eval (c t : Nat) (n : ℤ) (ht : t ≠ 0)
    (h1 : (n : ℚ) ≤ (c : ℚ) / (t : ℚ) * 100 * 100 + 1 / 2)
    (h2 : (c : ℚ) / (t : ℚ) * 100 * 100 + 1 / 2 < n + 1) :
    pct c t = (n : ℚ) / 100 := by
  unfold pct round2
  rw [if_neg ht, round_eq]
  have hfl : ⌊(c : ℚ) / (t : ℚ) * 100 * 100 + 1 / 2⌋ = n := Int.floor_eq_iff.mpr ⟨h1, h2⟩
  rw [hfl]

/-- Default-valued head of a nonempty list is a member. -/
theorem getD_zero_mem {α : Type} (l : List α) (d : α) (h : l ≠ []) :
    List.getD l 0 d ∈ l := by
  cases l with
  | nil => exact absurd rfl h
  | cons a t => simp [List.getD]

/-- Reading simplified_map yields the entry of the last analysis key whose
full name or basename equals the probe, because later insertions overwrite
earlier ones. -/
theorem simplifiedMap_eq_lastMatch (fam : List (String × TableEntry)) (x : String) :
    simplifiedMap fam x =
      (fam.reverse.find? (fun p => p.1 == x || basenameS p.1 == x)).map (fun p => p.2) := by
  unfold simplifiedMap
  induction fam using List.reverseRecOn with
  | nil => simp
  | append_singleton t p ih =>
    rw [List.foldl_append]
    simp only [List.foldl_cons, List.foldl_nil, List.reverse_append, List.reverse_singleton,
      List.singleton_append, List.find?, insertD]
    by_cases h1 : x = p.1
    · rw [if_pos h1]
      rw [show (p.1 == x || basenameS p.1 == x) = true by simp [h1]]
      simp
    · rw [if_neg h1]
      by_cases h2 : x = basenameS p.1
      · rw [if_pos h2]
        rw [show (p.1 == x || basenameS p.1 == x) = true by simp [h2]]
        simp
      · rw [if_neg h2]
        rw [show (p.1 == x || basenameS p.1 == x) = false by
          simp only [Bool.or_eq_false_iff, beq_eq_false_iff_ne]
          exact ⟨fun h => h1 h.symm, fun h => h2 h.symm⟩]
        exact ih

/-- A nonempty table always yields at least one group. -/
theorem groupingOf_ne_nil (df : DataFrame) (h : df.rows ≠ []) :
    (groupingOf df).1 ≠ [] := by
  rcases hr : df.rows with _ | ⟨r, t⟩
  · exact absurd hr h
  · unfold groupingOf
    rw [hr]
    split
    · simp [dedupKeep, dedupAux]
    · split
      · simp [dedupKeep, dedupAux]
      · simp

/-- When the classifier returns any file results at all, the whole result
is the aggregation of a nonempty group list. -/
theorem analyze_eq_aggregate (parse : String → Option Int) (today : Int) (df : DataFrame)
    (h : (analyze_overdue_jobs parse today df).file_results ≠ []) :
    ∃ frs, frs ≠ [] ∧ analyze_overdue_jobs parse today df = aggregateOf frs := by
  rcases hdi : idxOfS (strippedHeader df) "Calculated Due Date" with _ | di
  · simp only [analyze_overdue_jobs, hdi] at h
    simp [zeroResult] at h
  rcases hsi : idxOfS (strippedHeader df) "Job Status" with _ | si
  · simp only [analyze_overdue_jobs, hdi, hsi] at h
    simp [zeroResult] at h
  simp only [analyze_overdue_jobs, hdi, hsi] at h ⊢
  by_cases he :
      ((groupingOf df).1.map
        (mkFileResult parse today (strippedHeader df) di si (groupingOf df).2 df)).isEmpty
  · rw [if_pos he] at h
    simp [zeroResult] at h
  · rw [if_neg he] at h ⊢
    exact ⟨_, by simpa [List.isEmpty_iff] using he, rfl⟩

/-! Section: Claim theorems -/

/-- C1, counterexample: the spec says each group is classified against the
date encoded in its key (due-date at or before that effective date), but on
a batch whose two keys encode 01-01-2024 and 15-03-2024 the code counts
both pending rows with due date 01-06-2024 as overdue, although under the
spec's per-key effective dates (which differ between the two groups) each
group would have overdue count 0: the code compares every group against
today alone. -/
theorem C1_counterexample :
    (analyze_overdue_jobs parseDMY 20250101 dfTwoKeys).file_results.map
      FileResult.overdue_jobs_count = [1, 1] ∧
    specEffectiveDate 20250101 "A 01012024.csv" = 20240101 ∧
    specEffectiveDate 20250101 "B 15032024.csv" = 20240315 ∧
    specGroupOverdueCount parseDMY 20250101 dfTwoKeys 1 2 (some 0) "A 01012024.csv" = 0 ∧
    specGroupOverdueCount parseDMY 20250101 dfTwoKeys 1 2 (some 0) "B 15032024.csv" = 0 := by
  decide

/-- C1 (amended): the effective date used in the overdue comparison is the
clock value today, identical for every classified group; the date encoded
in a group's key never enters the comparison, so two groups whose keys
encode different dates are still classified against the same effective
date. -/
theorem C1_effective_date_is_today (parse : String → Option Int) (today : Int)
    (df : DataFrame) (di si : Nat) (fr : FileResult)
    (hdi : idxOfS (strippedHeader df) "Calculated Due Date" = some di)
    (hsi : idxOfS (strippedHeader df) "Job Status" = some si)
    (h : fr ∈ (analyze_overdue_jobs parse today df).file_results) :
    fr.overdue_jobs = (rowsOfGroup df (groupingOf df).2 fr.file_name).filter
      (overduePred parse today di si) := by
  obtain ⟨di2, si2, key, hdi2, hsi2, hk⟩ := analyze_mem_shape parse today df fr h
  rw [hdi] at hdi2
  rw [hsi] at hsi2
  obtain rfl : di = di2 := Option.some.inj hdi2
  obtain rfl : si = si2 := Option.some.inj hsi2
  subst hk
  simp [mkFileResult]

/-- C1, witness for the amended theorem: the first group of the two-key
batch. -/
theorem C1_witness :
    ((analyze_overdue_jobs parseDMY 20250101 dfTwoKeys).file_results.getD 0
        (mkFileResult parseDMY 20250101 (strippedHeader dfTwoKeys) 1 2 (some 0)
          dfTwoKeys "A 01012024.csv")).overdue_jobs =
      (rowsOfGroup dfTwoKeys (groupingOf dfTwoKeys).2
        ((analyze_overdue_jobs parseDMY 20250101 dfTwoKeys).file_results.getD 0
          (mkFileResult parseDMY 20250101 (strippedHeader dfTwoKeys) 1 2 (some 0)
            dfTwoKeys "A 01012024.csv")).file_name).filter
        (overduePred parseDMY 20250101 1 2) :=
  C1_effective_date_is_today parseDMY 20250101 dfTwoKeys 1 2 _ (by decide) (by decide)
    (getD_zero_mem _ _ (by decide))

/-- C3: for every classified group, critical count at most overdue count at
most total count, the critical subset is a sublist of the overdue subset,
and the overdue count vanishes on an empty group. -/
theorem C3_group_invariants (parse : String → Option Int) (today : Int)
    (df : DataFrame) (fr : FileResult)
    (h : fr ∈ (analyze_overdue_jobs parse today df).file_results) :
    fr.critical_overdue_jobs_count ≤ fr.overdue_jobs_count ∧
    fr.overdue_jobs_count ≤ fr.total_jobs ∧
    List.Sublist fr.critical_overdue_jobs fr.overdue_jobs ∧
    (fr.total_jobs = 0 → fr.overdue_jobs_count = 0) := by
  obtain ⟨di, si, key, _, _, hk⟩ := analyze_mem_shape parse today df fr h
  subst hk
  simp only [mkFileResult]
  have hsub : List.Sublist
      (criticalRows parse today (strippedHeader df) di si (rowsOfGroup df (groupingOf df).2 key))
      ((rowsOfGroup df (groupingOf df).2 key).filter (overduePred parse today di si)) := by
    unfold criticalRows
    split
    · exact filterAnd_sublist _ _ _
    · split
      · exact filterAnd_sublist _ _ _
      · exact List.nil_sublist _
  refine ⟨hsub.length_le, List.length_filter_le _ _, hsub, ?_⟩
  intro h0
  have : rowsOfGroup df (groupingOf df).2 key = [] := List.length_eq_zero.mp h0
  rw [this]
  rfl

/-- C3, witness: the first group of the two-key batch. -/
theorem C3_witness :
    ((analyze_overdue_jobs parseDMY 20250101 dfTwoKeys).file_results.getD 0
        defaultFR).critical_overdue_jobs_count ≤
      ((analyze_overdue_jobs parseDMY 20250101 dfTwoKeys).file_results.getD 0
        defaultFR).overdue_jobs_count ∧
    ((analyze_overdue_jobs parseDMY 20250101 dfTwoKeys).file_results.getD 0
        defaultFR).overdue_jobs_count ≤
      ((analyze_overdue_jobs parseDMY 20250101 dfTwoKeys).file_results.getD 0
        defaultFR).total_jobs ∧
    List.Sublist
      ((analyze_overdue_jobs parseDMY 20250101 dfTwoKeys).file_results.getD 0
        defaultFR).critical_overdue_jobs
      ((analyze_overdue_jobs parseDMY 20250101 dfTwoKeys).file_results.getD 0
        defaultFR).overdue_jobs ∧
    (((analyze_overdue_jobs parseDMY 20250101 dfTwoKeys).file_results.getD 0
        defaultFR).total_jobs = 0 →
      ((analyze_overdue_jobs parseDMY 20250101 dfTwoKeys).file_results.getD 0
        defaultFR).overdue_jobs_count = 0) :=
  C3_group_invariants parseDMY 20250101 dfTwoKeys _ (getD_zero_mem _ _ (by decide))

/-- C9: when a column literally named "Unnamed: 0" is present, the critical
subset of every group is exactly the rows of that group whose "Unnamed: 0"
cell is "c" (trimmed, case-folded) and which are overdue; the branch never
consults a critical/priority column, whatever its values. -/
theorem C9_unnamed_column_precedence (parse : String → Option Int) (today : Int)
    (df : DataFrame) (di si ui : Nat) (fr : FileResult)
    (hdi : idxOfS (strippedHeader df) "Calculated Due Date" = some di)
    (hsi : idxOfS (strippedHeader df) "Job Status" = some si)
    (hui : idxOfS (strippedHeader df) "Unnamed: 0" = some ui)
    (h : fr ∈ (analyze_overdue_jobs parse today df).file_results) :
    fr.critical_overdue_jobs = (rowsOfGroup df (groupingOf df).2 fr.file_name).filter
      (fun r => critMark (cellAt r ui) && overduePred parse today di si r) := by
  obtain ⟨di2, si2, key, hdi2, hsi2, hk⟩ := analyze_mem_shape parse today df fr h
  rw [hdi] at hdi2
  rw [hsi] at hsi2
  obtain rfl : di = di2 := Option.some.inj hdi2
  obtain rfl : si = si2 := Option.some.inj hsi2
  subst hk
  simp only [mkFileResult]
  unfold criticalRows
  rw [hui]

/-- C9, witness: the single overdue row of dfUnnamedPriority carries the
value "high" in its Priority column yet is not critical, because the blank
"Unnamed: 0" column alone decides criticality. -/
theorem C9_witness :
    ((analyze_overdue_jobs parseDMY 20250101 dfUnnamedPriority).file_results.getD 0
        defaultFR).critical_overdue_jobs =
      (rowsOfGroup dfUnnamedPriority (groupingOf dfUnnamedPriority).2
        ((analyze_overdue_jobs parseDMY 20250101 dfUnnamedPriority).file_results.getD 0
          defaultFR).file_name).filter
        (fun r => critMark (cellAt r 0) && overduePred parseDMY 20250101 1 2 r) ∧
    ((analyze_overdue_jobs parseDMY 20250101 dfUnnamedPriority).file_results.getD 0
        defaultFR).critical_overdue_jobs = [] ∧
    ((analyze_overdue_jobs parseDMY 20250101 dfUnnamedPriority).file_results.getD 0
        defaultFR).overdue_jobs_count = 1 :=
  ⟨C9_unnamed_column_precedence parseDMY 20250101 dfUnnamedPriority 1 2 0 _
      (by decide) (by decide) (by decide) (getD_zero_mem _ _ (by decide)),
    by decide, by decide⟩

/-- C4: the aggregate percentages are recomputed from the summed counts
(round of 100 times summed overdue over summed total, to two decimals),
they are 0 when the summed total is 0, and on the skewed two-group batch
the value (25) differs from the mean of the per-group percentages (50). -/
theorem C4_aggregate_from_sums (parse : String → Option Int) (today : Int)
    (df : DataFrame)
    (h : (analyze_overdue_jobs parse today df).file_results ≠ []) :
    ((analyze_overdue_jobs parse today df).total_jobs =
      ((analyze_overdue_jobs parse today df).file_results.map FileResult.total_jobs).sum) ∧
    ((analyze_overdue_jobs parse today df).overdue_jobs_count =
      ((analyze_overdue_jobs parse today df).file_results.map
        FileResult.overdue_jobs_count).sum) ∧
    ((analyze_overdue_jobs parse today df).critical_overdue_jobs_count =
      ((analyze_overdue_jobs parse today df).file_results.map
        FileResult.critical_overdue_jobs_count).sum) ∧
    ((analyze_overdue_jobs parse today df).total_jobs ≠ 0 →
      (analyze_overdue_jobs parse today df).overdue_jobs_percentage =
        round2 (100 * ((analyze_overdue_jobs parse today df).overdue_jobs_count : ℚ) /
          ((analyze_overdue_jobs parse today df).total_jobs : ℚ)) ∧
      (analyze_overdue_jobs parse today df).critical_overdue_jobs_percentage =
        round2 (100 * ((analyze_overdue_jobs parse today df).critical_overdue_jobs_count : ℚ) /
          ((analyze_overdue_jobs parse today df).total_jobs : ℚ))) ∧
    ((analyze_overdue_jobs parse today df).total_jobs = 0 →
      (analyze_overdue_jobs parse today df).overdue_jobs_percentage = 0 ∧
      (analyze_overdue_jobs parse today df).critical_overdue_jobs_percentage = 0) ∧
    (analyze_overdue_jobs parseDMY 20250101 dfSkewed).overdue_jobs_percentage = 25 ∧
    specMeanOverduePct (analyze_overdue_jobs parseDMY 20250101 dfSkewed).file_results = 50 := by
  obtain ⟨frs, hne, heq⟩ := analyze_eq_aggregate parse today df h
  rw [heq]
  simp only [aggregateOf]
  refine ⟨trivial, trivial, trivial, ?_, ?_, ?_, ?_⟩
  · intro ht
    constructor
    · unfold pct
      rw [if_neg ht]
      congr 1
      ring
    · unfold pct
      rw [if_neg ht]
      congr 1
      ring
  · intro ht
    unfold pct
    rw [if_pos ht, if_pos ht]
    exact ⟨rfl, rfl⟩
  · have h1 : (analyze_overdue_jobs parseDMY 20250101 dfSkewed).overdue_jobs_percentage
        = pct 1 4 := rfl
    rw [h1, pct_eval 1 4 2500 (by norm_num) (by norm_num) (by norm_num)]
    norm_num
  · have h2 : (analyze_overdue_jobs parseDMY 20250101 dfSkewed).file_results.map
        FileResult.overdue_jobs_percentage = [pct 1 1, pct 0 3] := rfl
    have h3 : (analyze_overdue_jobs parseDMY 20250101 dfSkewed).file_results.length = 2 := by
      decide
    unfold specMeanOverduePct
    rw [h2, h3, pct_eval 1 1 10000 (by norm_num) (by norm_num) (by norm_num),
      pct_eval 0 3 0 (by norm_num) (by norm_num) (by norm_num)]
    norm_num

/-- C4, witness: the skewed two-group batch. -/
theorem C4_witness :
    (analyze_overdue_jobs parseDMY 20250101 dfSkewed).total_jobs =
      ((analyze_overdue_jobs parseDMY 20250101 dfSkewed).file_results.map
        FileResult.total_jobs).sum ∧
    (analyze_overdue_jobs parseDMY 20250101 dfSkewed).overdue_jobs_count =
      ((analyze_overdue_jobs parseDMY 20250101 dfSkewed).file_results.map
        FileResult.overdue_jobs_count).sum :=
  ⟨(C4_aggregate_from_sums parseDMY 20250101 dfSkewed (by decide)).1,
    (C4_aggregate_from_sums parseDMY 20250101 dfSkewed (by decide)).2.1⟩

/-- C5, counterexample: a nonempty table that has a Calculated Due Date
column (hence does not lack both required columns) but no Job Status column
still gets the all-zero result, so "exactly when the table lacks both
columns" fails: lacking either column alone already short-circuits. -/
theorem C5_counterexample :
    analyze_overdue_jobs parseDMY 0 dfDueOnly = zeroResult ∧
    idxOfS (strippedHeader dfDueOnly) "Calculated Due Date" = some 0 ∧
    idxOfS (strippedHeader dfDueOnly) "Job Status" = none := by
  decide

/-- C5 (amended): for every table with at least one row, the classifier
returns the all-zero result exactly when the table lacks a Calculated Due
Date column or lacks a Job Status column; with both columns present the
result always carries at least one per-file entry, so the no-analysis
state stays distinct from an analysis that found zero overdue jobs. -/
theorem C5_missing_column_shortcircuit (parse : String → Option Int) (today : Int)
    (df : DataFrame) (hrows : df.rows ≠ []) :
    analyze_overdue_jobs parse today df = zeroResult ↔
      (idxOfS (strippedHeader df) "Calculated Due Date" = none ∨
       idxOfS (strippedHeader df) "Job Status" = none) := by
  constructor
  · intro hz
    by_contra hc
    push_neg at hc
    obtain ⟨hdi, hsi⟩ := hc
    obtain ⟨di, hdi⟩ := Option.ne_none_iff_exists.mp hdi
    obtain ⟨si, hsi⟩ := Option.ne_none_iff_exists.mp hsi
    have hfrs : ((groupingOf df).1.map
        (mkFileResult parse today (strippedHeader df) di si (groupingOf df).2 df)) ≠ [] := by
      intro hmap
      exact groupingOf_ne_nil df hrows (List.map_eq_nil_iff.mp hmap)
    have hres : (analyze_overdue_jobs parse today df).file_results ≠ [] := by
      simp only [analyze_overdue_jobs, hdi.symm, hsi.symm]
      rw [if_neg (by simpa [List.isEmpty_iff] using hfrs)]
      simpa [aggregateOf] using hfrs
    rw [hz] at hres
    exact hres rfl
  · intro hor
    rcases hor with hdi | hsi
    · simp only [analyze_overdue_jobs]
      split
      · rename_i di si hdi2 hsi2
        rw [hdi] at hdi2
        exact Option.noConfusion hdi2
      · rfl
    · simp only [analyze_overdue_jobs]
      split
      · rename_i di si hdi2 hsi2
        rw [hsi] at hsi2
        exact Option.noConfusion hsi2
      · rfl

/-- C5, witness for the amended theorem: the nonempty due-date-only table
is sent to the all-zero result. -/
theorem C5_witness :
    analyze_overdue_jobs parseDMY 7 dfDueOnly = zeroResult :=
  (C5_missing_column_shortcircuit parseDMY 7 dfDueOnly (by decide)).mpr (Or.inr (by decide))

/-- C10, counterexample: a readable table whose header has no status column
but has a vessel column and no rows makes the summarizer read the first
vessel cell, which raises, so the whole summary degrades to the Error
sentinel instead of reporting New Job Count 0 with total row count 0. -/
theorem C10_counterexample :
    (process_csv_file "empty.csv" (some dfVesselEmpty)).newJobCount = none ∧
    (process_csv_file "empty.csv" (some dfVesselEmpty)).totalCount = none ∧
    statusColIdx dfVesselEmpty.header = none := by
  decide

/-- C10 (amended): for every readable table without a status column that
has at least one row or no vessel column, the summarizer succeeds, with
New Job Count 0 and the numeric total row count. -/
theorem C10_no_status_column_succeeds (name : String) (df : DataFrame)
    (hs : statusColIdx df.header = none)
    (hne : df.rows ≠ [] ∨ vesselColIdx df.header = none) :
    (process_csv_file name (some df)).newJobCount = some 0 ∧
    (process_csv_file name (some df)).totalCount = some df.rows.length := by
  rcases hv : vesselColIdx df.header with _ | vi
  · simp [process_csv_file, hv, mkSummary, hs]
  · rcases hr : df.rows with _ | ⟨r, t⟩
    · rcases hne with hne | hne
      · exact absurd hr hne
      · rw [hv] at hne
        exact Option.noConfusion hne
    · simp [process_csv_file, hv, hr, mkSummary, hs]

/-- C10, witness: a one-row table with a vessel column and no status
column. -/
theorem C10_witness :
    (process_csv_file "f.csv" (some dfNoStatus)).newJobCount = some 0 ∧
    (process_csv_file "f.csv" (some dfNoStatus)).totalCount = some dfNoStatus.rows.length :=
  C10_no_status_column_succeeds "f.csv" dfNoStatus (by decide) (Or.inl (by decide))

/-- C6, counterexample: the identifier a_01012024.csv contains the distinct
8-digit run 01012024 whose neighbours are not digits (after stripping the
extension, as the claim demands), yet extraction returns "Unknown": the
regex word boundary also rejects neighbouring letters, digits and
underscores, and the code never strips the extension. -/
theorem C6_counterexample :
    formatDate "a_01012024.csv" = "Unknown" ∧
    specTokAt (specStripExt "a_01012024.csv").data 2 = true := by
  decide

/-- C6 (amended): the extractor scans the identifier as-is (no extension
stripping) for the leftmost 8-digit run delimited by word boundaries, so a
run touching a letter, digit or underscore is invisible; it renders that
run as dd-mm-yyyy, returns "Unknown" exactly when no such delimited run
exists, and every summary's extracted-date field carries this value. -/
theorem C6_word_boundary_extraction (name : String) :
    (∀ t, (process_csv_file name t).extractedDate = formatDate name) ∧
    ((∀ j, okAt name.data j = false) → formatDate name = "Unknown") ∧
    (∀ i, okAt name.data i = true → (∀ j, j < i → okAt name.data j = false) →
      formatDate name = fmtRunL name.data i ∧ formatDate name ≠ "Unknown") := by
  refine ⟨?_, ?_, ?_⟩
  · intro t
    rcases t with _ | df
    · rfl
    · rcases hv : vesselColIdx df.header with _ | vi
      · simp [process_csv_file, hv, mkSummary]
      · rcases hr : df.rows with _ | ⟨r, tl⟩
        · simp [process_csv_file, hv, hr, errorSummary]
        · simp [process_csv_file, hv, hr, mkSummary]
  · intro hall
    unfold formatDate
    rw [scanIdx_eq_none (okAt name.data) 0 name.data.length hall]
  · intro i hi hmin
    have hi2 := hi
    simp only [okAt, Bool.and_eq_true, beq_iff_eq] at hi2
    obtain ⟨⟨⟨hA, hB⟩, hC⟩, hD⟩ := hi2
    have h8 : ((name.data.drop i).take 8).length = 8 := hB
    have hlen : i + 8 ≤ name.data.length := by
      rw [List.length_take, List.length_drop] at h8
      omega
    have hscan : scanIdx (okAt name.data) 0 name.data.length = some i :=
      scanIdx_eq_some _ 0 _ i (Nat.zero_le i) (by omega) hi (fun j _ hj => hmin j hj)
    have hfd : formatDate name = fmtRunL name.data i := by
      unfold formatDate
      rw [hscan]
    refine ⟨hfd, ?_⟩
    rw [hfd]
    obtain ⟨c, rest, hcr⟩ : ∃ c rest, name.data.drop i = c :: rest := by
      rcases hd : name.data.drop i with _ | ⟨c, rest⟩
      · rw [hd] at h8
        simp at h8
      · exact ⟨c, rest, rfl⟩
    have hcd : c.isDigit = true := by
      have hall8 : ((name.data.drop i).take 8).all Char.isDigit = true := hC
      have h5 : (name.data.drop i).take 8 = c :: rest.take 7 := by
        rw [hcr]
        rfl
      rw [h5] at hall8
      simp only [List.all_cons, Bool.and_eq_true] at hall8
      exact hall8.1
    intro heq
    have hdata := congrArg String.data heq
    simp only [fmtRunL] at hdata
    rw [hcr] at hdata
    rw [show (c :: rest).take 2 = c :: rest.take 1 from rfl] at hdata
    have hcu : c = 'U' := by injection hdata
    rw [hcu] at hcd
    exact absurd hcd (by decide)

/-- C6, witness for the amended theorem: a space-delimited token is
extracted and formatted, both standalone and through a summary record. -/
theorem C6_witness :
    formatDate "a 01012024.csv" = "01-01-2024" ∧
    (process_csv_file "a 01012024.csv" none).extractedDate = "01-01-2024" := by
  have h := C6_word_boundary_extraction "a 01012024.csv"
  have h3 := h.2.2 2 (by decide) (by decide)
  refine ⟨h3.1.trans (by decide), ?_⟩
  rw [h.1 none]
  exact h3.1.trans (by decide)

/-- C2, counterexample: a display row matched by no tier receives the
numeric value zero from the chart consumer (zeros are appended to both
chart series), not an explicit unresolved marker. -/
theorem C2_counterexample :
    chartReconcile [("a.csv", (5, 2))] "zzz" = (0, 0) ∧
    lookupD [("a.csv", (5, 2))] "zzz" = none ∧
    lookupD [("a.csv", (5, 2))] (basenameS "zzz") = none ∧
    List.find? (fun p => substrOf "zzz" p.1 || substrOf p.1 "zzz") [("a.csv", (5, 2))] =
      none := by
  decide

/-- C2 (amended): for a display row matched by no reconciliation tier, the
summary-table consumer receives the explicit unresolved marker, but the
chart consumer coerces the row to numeric zeros. -/
theorem C2_unmatched_markers (m : List (String × (Nat × Nat)))
    (fam : List (String × TableEntry)) (fn : String)
    (h1 : lookupD m fn = none) (h2 : lookupD m (basenameS fn) = none)
    (h3 : m.find? (fun p => substrOf fn p.1 || substrOf p.1 fn) = none)
    (h4 : simplifiedMap fam fn = none) (h5 : simplifiedMap fam (basenameS fn) = none)
    (h6 : fam.find? (fun p => substrOf fn p.1 || substrOf p.1 fn) = none) :
    chartReconcile m fn = (0, 0) ∧ tableReconcile fam fn = none := by
  constructor
  · unfold chartReconcile
    rw [h1, h2, h3]
  · unfold tableReconcile
    rw [h4, h5, h6]

/-- C2, witness for the amended theorem. -/
theorem C2_witness :
    chartReconcile [("a.csv", (5, 2))] "qqq" = (0, 0) ∧
    tableReconcile [("a.csv", { overdueJobs := 5, criticalOverdue := 2, overduePct := 50 })]
      "qqq" = none :=
  C2_unmatched_markers [("a.csv", (5, 2))]
    [("a.csv", { overdueJobs := 5, criticalOverdue := 2, overduePct := 50 })] "qqq"
    (by decide) (by decide) (by decide) (by decide) (by decide) (by decide)

/-- C7, counterexample: in the summary table the display row "a" exactly
matches the analysis key "a" (entry with overdue count 1), yet it resolves
to the entry of the other key "dir/a" (overdue count 0) because that key's
basename overwrote the exact key inside simplified_map: an exact match is
resolved through basename material, so the exact tier does not always beat
the basename tier. -/
theorem C7_counterexample :
    tableReconcile
      [("a", { overdueJobs := 1, criticalOverdue := 0, overduePct := 100 }),
       ("dir/a", { overdueJobs := 0, criticalOverdue := 0, overduePct := 0 })] "a" =
      some { overdueJobs := 0, criticalOverdue := 0, overduePct := 0 } ∧
    lookupD
      ([("a", { overdueJobs := 1, criticalOverdue := 0, overduePct := 100 }),
        ("dir/a", { overdueJobs := 0, criticalOverdue := 0, overduePct := 0 })] :
        List (String × TableEntry)) "a" =
      some { overdueJobs := 1, criticalOverdue := 0, overduePct := 100 } := by
  decide

/-- C7 (amended): the chart reconciler tries its tiers in fixed order with
the first match winning and no backtracking (exact beats basename beats
substring); the summary-table reconciler resolves its first tier to the
entry of the last analysis key whose full name or basename equals the
display identifier, so an exact key match can be superseded by a later
key's basename there. -/
theorem C7_tier_order (m : List (String × (Nat × Nat)))
    (fam : List (String × TableEntry)) (fn : String) :
    (∀ v, lookupD m fn = some v → chartReconcile m fn = v) ∧
    (lookupD m fn = none → ∀ v, lookupD m (basenameS fn) = some v →
      chartReconcile m fn = v) ∧
    (lookupD m fn = none → lookupD m (basenameS fn) = none →
      ∀ p, m.find? (fun q => substrOf fn q.1 || substrOf q.1 fn) = some p →
        chartReconcile m fn = p.2) ∧
    (∀ q, fam.reverse.find? (fun p => p.1 == fn || basenameS p.1 == fn) = some q →
      tableReconcile fam fn = some q.2) := by
  refine ⟨?_, ?_, ?_, ?_⟩
  · intro v hv
    unfold chartReconcile
    rw [hv]
  · intro h0 v hv
    unfold chartReconcile
    rw [h0, hv]
  · intro h0 h1 p hp
    unfold chartReconcile
    rw [h0, h1, hp]
  · intro q hq
    unfold tableReconcile
    rw [simplifiedMap_eq_lastMatch, hq]
    simp

/-- C7, witness for the amended theorem: a row whose basename match wins
while a substring match would also have applied. -/
theorem C7_witness :
    chartReconcile [("f.csv", (2, 1)), ("x", (9, 9))] "dir/f.csv" = (2, 1) :=
  (C7_tier_order [("f.csv", (2, 1)), ("x", (9, 9))] [] "dir/f.csv").2.1
    (by decide) (2, 1) (by decide)

/-- C8, counterexample: the workbook produced for a table carrying an
Overdue % column of "100.0%" registers exactly one conditional formatting
rule, a duplicate-values rule over column B; no rule of any other type
exists, so no cell is flagged by a greater-than-3-percent rule. -/
theorem C8_counterexample :
    (create_excel_report dfExport).condRules =
      [{ ruleType := "duplicateValues", cellRange := "B2:B3" }] ∧
    ((create_excel_report dfExport).condRules.all
      (fun r => r.ruleType == "duplicateValues")) = true := by
  decide

/-- C8 (amended): for every exported table the conditional formatting of
the sheet is exactly one duplicate-values rule over the vessel-name column
B; no percentage-threshold rule is registered. -/
theorem C8_only_duplicate_rule (df : DataFrame) :
    (create_excel_report df).condRules =
      [{ ruleType := "duplicateValues",
         cellRange := "B2:B" ++ toString (df.rows.length + 1) }] :=
  rfl
